import Mathlib

/-!
Shallow embedding of the doof register VM (src/vm) and its async runtime
(src/doof_runtime.h / src/doof_runtime.cpp), restricted to the parts needed
by the verified claims: the Value model, int arithmetic opcodes, the
call-stack operations (CALL / RETURN / INVOKE_LAMBDA), string-keyed map
opcodes, iterators, breakpoint management, and the task state machine.

Machine integers are modelled as Lean Int with an explicit two's-complement
wrap at 32 bits (wrap32) where the C++ stores into an int32_t.  C++ strings
are modelled as byte sequences (List Nat), matching std::string.  Fallible
C++ paths (throw std::runtime_error, std::bad_variant_access) are modelled
with Except String.
-/

/-- Byte sequence standing for a C++ std::string. -/
abbrev VMStr := List Nat

/-- Tagged value held in a VM register (value.h, class Value).  Only the
variants exercised by the claims are represented: Null, Bool, Int, Char,
String, Lambda (struct Lambda: code_index, parameter_count,
captured_values) and the FunctionMetadata object subclass read by CALL.
Float/Double and the shared-pointer container variants are not needed by
any claim settled here; containers are modelled at the container level. -/
inductive Value where
  | null
  | bool (b : Bool)
  | int (n : Int)
  | char (c : Nat)
  | string (s : VMStr)
  | lambda (code_index : Int) (parameter_count : Int) (captured_values : List Value)
  | funcMeta (fields : List Value)

instance : Inhabited Value := ⟨Value.null⟩

/-- Accessor Value::as_int.  std::get throws std::bad_variant_access when
the variant holds a different alternative. -/
def Value.as_int : Value → Except String Int
  | .int n => .ok n
  | _ => .error "bad_variant_access"

/-- Accessor Value::as_lambda (returns the lambda payload). -/
def Value.as_lambda : Value → Except String (Int × Int × List Value)
  | .lambda ci pc cv => .ok (ci, pc, cv)
  | _ => .error "bad_variant_access"

/-- Lower bound of int32_t. -/
def INT32_MIN : Int := -(2 ^ 31)

/-- Strict upper bound of int32_t plus one is 2^31; a value n is a valid
int32_t payload when INT32_MIN ≤ n < 2^31. -/
def int32InRange (n : Int) : Prop := INT32_MIN ≤ n ∧ n < 2 ^ 31

/-- Two's-complement wrap to 32 bits: the value an int32_t holds after the
mathematical integer n is stored into it (C++ leaves signed overflow
undefined; the model picks the two's-complement wrap, which agrees with
the mathematical result whenever that result is representable). -/
def wrap32 (n : Int) : Int := (n + 2 ^ 31) % 2 ^ 32 - 2 ^ 31

/-- A stack frame (frame.h, class StackFrame): the register window, the
saved instruction pointer and the constant-pool index of the function that
created the frame. -/
structure StackFrame where
  registers : List Value
  instruction_pointer : Int
  function_index : Int

/-- The StackFrame constructor: num_registers default-constructed Values
(Value() is the Null monostate), instruction_pointer 0, function_index -1. -/
def StackFrame.new (num_registers : Nat := 256) : StackFrame :=
  { registers := List.replicate num_registers Value.null
    instruction_pointer := 0
    function_index := -1 }

/-- DoofVM::validate_register for a given frame (safe build): throws when
the register byte is not below the register count of the current frame. -/
def validate_register (f : StackFrame) (reg : Nat) : Except String Unit :=
  if reg < f.registers.length then .ok ()
  else .error ("Register index out of bounds: " ++ toString reg)

/-- Result stored by the DIV_INT case (vm.cpp): int32_t result = left / right,
with C++ division truncating toward zero. -/
def div_int_result (left right : Int) : Int := wrap32 (left.tdiv right)

/-- Result stored by the MOD_INT case (vm.cpp): int32_t result = left % right,
with C++ remainder truncating toward zero. -/
def mod_int_result (left right : Int) : Int := wrap32 (left.tmod right)

/-- Case Opcode::DIV_INT of DoofVM::run (vm.cpp): validate the three
registers, read the int operands, bounds-check the divisor with message
"Division by zero", store left / right into register a. -/
def execDivInt (f : StackFrame) (a b c : Nat) : Except String StackFrame := do
  let _ ← validate_register f a
  let _ ← validate_register f b
  let _ ← validate_register f c
  let left ← (f.registers.getD b Value.null).as_int
  let right ← (f.registers.getD c Value.null).as_int
  if right = 0 then .error "Division by zero"
  else .ok { f with registers := f.registers.set a (Value.int (div_int_result left right)) }

/-- Case Opcode::MOD_INT of DoofVM::run (vm.cpp): validate the three
registers, read the int operands, bounds-check the divisor with message
"Modulo by zero", store left % right into register a. -/
def execModInt (f : StackFrame) (a b c : Nat) : Except String StackFrame := do
  let _ ← validate_register f a
  let _ ← validate_register f b
  let _ ← validate_register f c
  let left ← (f.registers.getD b Value.null).as_int
  let right ← (f.registers.getD c Value.null).as_int
  if right = 0 then .error "Modulo by zero"
  else .ok { f with registers := f.registers.set a (Value.int (mod_int_result left right)) }

/-- A two-register frame holding Int 1 and Int 0, used to exercise the
divide-by-zero paths with the divisor taken from register 1. -/
def divByZeroFrame : StackFrame :=
  { registers := [Value.int 1, Value.int 0], instruction_pointer := 0, function_index := -1 }

-- Numeric opcode values (opcodes.h, enum class Opcode : uint8_t).
namespace Opcode

def NOP : Nat := 0x00
def HALT : Nat := 0x01
def MOVE : Nat := 0x10
def LOADK : Nat := 0x11
def LOADK_NULL : Nat := 0x12
def LOADK_INT16 : Nat := 0x13
def LOADK_BOOL : Nat := 0x14
def LOADK_FLOAT : Nat := 0x15
def LOADK_CHAR : Nat := 0x16
def ADD_INT : Nat := 0x20
def SUB_INT : Nat := 0x21
def MUL_INT : Nat := 0x22
def DIV_INT : Nat := 0x23
def MOD_INT : Nat := 0x24
def ADD_FLOAT : Nat := 0x25
def SUB_FLOAT : Nat := 0x26
def MUL_FLOAT : Nat := 0x27
def DIV_FLOAT : Nat := 0x28
def ADD_DOUBLE : Nat := 0x29
def SUB_DOUBLE : Nat := 0x2A
def MUL_DOUBLE : Nat := 0x2B
def DIV_DOUBLE : Nat := 0x2C
def NOT_BOOL : Nat := 0x30
def AND_BOOL : Nat := 0x31
def OR_BOOL : Nat := 0x32
def EQ_INT : Nat := 0x40
def LT_INT : Nat := 0x41
def EQ_FLOAT : Nat := 0x42
def LT_FLOAT : Nat := 0x43
def LTE_FLOAT : Nat := 0x44
def EQ_DOUBLE : Nat := 0x45
def LT_DOUBLE : Nat := 0x46
def LTE_DOUBLE : Nat := 0x47
def EQ_STRING : Nat := 0x48
def LT_STRING : Nat := 0x49
def EQ_BOOL : Nat := 0x4A
def LT_BOOL : Nat := 0x4B
def EQ_OBJECT : Nat := 0x4C
def EQ_CHAR : Nat := 0x4D
def LT_CHAR : Nat := 0x4E
def INT_TO_FLOAT : Nat := 0x50
def INT_TO_DOUBLE : Nat := 0x51
def FLOAT_TO_INT : Nat := 0x52
def DOUBLE_TO_INT : Nat := 0x53
def FLOAT_TO_DOUBLE : Nat := 0x54
def DOUBLE_TO_FLOAT : Nat := 0x55
def IS_NULL : Nat := 0x56
def GET_CLASS_IDX : Nat := 0x57
def INT_TO_STRING : Nat := 0x58
def FLOAT_TO_STRING : Nat := 0x59
def DOUBLE_TO_STRING : Nat := 0x5A
def BOOL_TO_STRING : Nat := 0x5B
def CHAR_TO_STRING : Nat := 0x5C
def TYPE_OF : Nat := 0x5D
def STRING_TO_INT : Nat := 0x5E
def STRING_TO_FLOAT : Nat := 0x5F
def STRING_TO_DOUBLE : Nat := 0x60
def STRING_TO_BOOL : Nat := 0x61
def STRING_TO_CHAR : Nat := 0x62
def INT_TO_BOOL : Nat := 0x63
def FLOAT_TO_BOOL : Nat := 0x64
def DOUBLE_TO_BOOL : Nat := 0x65
def BOOL_TO_INT : Nat := 0x66
def BOOL_TO_FLOAT : Nat := 0x67
def BOOL_TO_DOUBLE : Nat := 0x68
def CHAR_TO_INT : Nat := 0x69
def INT_TO_CHAR : Nat := 0x6A
def INT_TO_ENUM : Nat := 0x6B
def STRING_TO_ENUM : Nat := 0x6C
def ENUM_TO_STRING : Nat := 0x6D
def CLASS_TO_JSON : Nat := 0x6E
def ADD_STRING : Nat := 0x70
def LENGTH_STRING : Nat := 0x71
def NEW_ARRAY : Nat := 0x72
def GET_ARRAY : Nat := 0x73
def SET_ARRAY : Nat := 0x74
def LENGTH_ARRAY : Nat := 0x75
def NEW_OBJECT : Nat := 0x80
def GET_FIELD : Nat := 0x81
def SET_FIELD : Nat := 0x82
def NEW_MAP : Nat := 0x83
def GET_MAP : Nat := 0x84
def SET_MAP : Nat := 0x85
def HAS_KEY_MAP : Nat := 0x86
def DELETE_MAP : Nat := 0x87
def KEYS_MAP : Nat := 0x88
def VALUES_MAP : Nat := 0x89
def SIZE_MAP : Nat := 0x8A
def CLEAR_MAP : Nat := 0x8B
def NEW_SET : Nat := 0x8C
def ADD_SET : Nat := 0x8D
def HAS_SET : Nat := 0x8E
def DELETE_SET : Nat := 0x8F
def SIZE_SET : Nat := 0x90
def CLEAR_SET : Nat := 0x91
def TO_ARRAY_SET : Nat := 0x92
def JMP : Nat := 0x93
def JMP_IF_TRUE : Nat := 0x94
def JMP_IF_FALSE : Nat := 0x95
def CALL : Nat := 0xA1
def RETURN : Nat := 0xA2
def EXTERN_CALL : Nat := 0xA3
def CREATE_LAMBDA : Nat := 0xA4
def INVOKE_LAMBDA : Nat := 0xA5
def CAPTURE_VALUE : Nat := 0xA6
def NEW_MAP_INT : Nat := 0xB1
def GET_MAP_INT : Nat := 0xB2
def SET_MAP_INT : Nat := 0xB3
def HAS_KEY_MAP_INT : Nat := 0xB4
def DELETE_MAP_INT : Nat := 0xB5
def NEW_SET_INT : Nat := 0xB6
def ADD_SET_INT : Nat := 0xB7
def HAS_SET_INT : Nat := 0xB8
def DELETE_SET_INT : Nat := 0xB9
def ITER_INIT : Nat := 0xC0
def ITER_NEXT : Nat := 0xC1
def ITER_VALUE : Nat := 0xC2
def ITER_KEY : Nat := 0xC3
def GET_GLOBAL : Nat := 0xD0
def SET_GLOBAL : Nat := 0xD1

end Opcode

/-- The exact list of case labels of the opcode dispatch switch in
DoofVM::run (vm.cpp, the switch on op inside the execution loop), in
source order.  An opcode outside this list falls into the default case,
which throws "Unimplemented or unknown opcode: " followed by the numeric
opcode value. -/
def runSwitchCases : List Nat := [
  Opcode.EXTERN_CALL,
  Opcode.NOP,
  Opcode.HALT,
  Opcode.MOVE,
  Opcode.LOADK,
  Opcode.LOADK_NULL,
  Opcode.LOADK_INT16,
  Opcode.LOADK_BOOL,
  Opcode.LOADK_FLOAT,
  Opcode.LOADK_CHAR,
  Opcode.ADD_INT,
  Opcode.SUB_INT,
  Opcode.MUL_INT,
  Opcode.DIV_INT,
  Opcode.MOD_INT,
  Opcode.EQ_INT,
  Opcode.LT_INT,
  Opcode.NOT_BOOL,
  Opcode.AND_BOOL,
  Opcode.OR_BOOL,
  Opcode.JMP,
  Opcode.JMP_IF_TRUE,
  Opcode.JMP_IF_FALSE,
  Opcode.ADD_FLOAT,
  Opcode.SUB_FLOAT,
  Opcode.MUL_FLOAT,
  Opcode.DIV_FLOAT,
  Opcode.ADD_DOUBLE,
  Opcode.SUB_DOUBLE,
  Opcode.MUL_DOUBLE,
  Opcode.DIV_DOUBLE,
  Opcode.EQ_FLOAT,
  Opcode.LT_FLOAT,
  Opcode.LTE_FLOAT,
  Opcode.EQ_DOUBLE,
  Opcode.LT_DOUBLE,
  Opcode.LTE_DOUBLE,
  Opcode.EQ_STRING,
  Opcode.LT_STRING,
  Opcode.EQ_BOOL,
  Opcode.LT_BOOL,
  Opcode.EQ_OBJECT,
  Opcode.EQ_CHAR,
  Opcode.LT_CHAR,
  Opcode.INT_TO_FLOAT,
  Opcode.INT_TO_DOUBLE,
  Opcode.FLOAT_TO_INT,
  Opcode.DOUBLE_TO_INT,
  Opcode.FLOAT_TO_DOUBLE,
  Opcode.DOUBLE_TO_FLOAT,
  Opcode.IS_NULL,
  Opcode.GET_CLASS_IDX,
  Opcode.TYPE_OF,
  Opcode.INT_TO_STRING,
  Opcode.FLOAT_TO_STRING,
  Opcode.DOUBLE_TO_STRING,
  Opcode.BOOL_TO_STRING,
  Opcode.CHAR_TO_STRING,
  Opcode.STRING_TO_INT,
  Opcode.STRING_TO_FLOAT,
  Opcode.STRING_TO_DOUBLE,
  Opcode.STRING_TO_BOOL,
  Opcode.STRING_TO_CHAR,
  Opcode.INT_TO_BOOL,
  Opcode.FLOAT_TO_BOOL,
  Opcode.DOUBLE_TO_BOOL,
  Opcode.CHAR_TO_INT,
  Opcode.INT_TO_CHAR,
  Opcode.ADD_STRING,
  Opcode.LENGTH_STRING,
  Opcode.NEW_ARRAY,
  Opcode.GET_ARRAY,
  Opcode.SET_ARRAY,
  Opcode.LENGTH_ARRAY,
  Opcode.NEW_OBJECT,
  Opcode.GET_FIELD,
  Opcode.SET_FIELD,
  Opcode.NEW_MAP,
  Opcode.GET_MAP,
  Opcode.SET_MAP,
  Opcode.HAS_KEY_MAP,
  Opcode.DELETE_MAP,
  Opcode.KEYS_MAP,
  Opcode.VALUES_MAP,
  Opcode.SIZE_MAP,
  Opcode.CLEAR_MAP,
  Opcode.NEW_MAP_INT,
  Opcode.GET_MAP_INT,
  Opcode.SET_MAP_INT,
  Opcode.HAS_KEY_MAP_INT,
  Opcode.DELETE_MAP_INT,
  Opcode.NEW_SET,
  Opcode.ADD_SET,
  Opcode.HAS_SET,
  Opcode.DELETE_SET,
  Opcode.SIZE_SET,
  Opcode.CLEAR_SET,
  Opcode.TO_ARRAY_SET,
  Opcode.NEW_SET_INT,
  Opcode.ADD_SET_INT,
  Opcode.HAS_SET_INT,
  Opcode.DELETE_SET_INT,
  Opcode.CREATE_LAMBDA,
  Opcode.CAPTURE_VALUE,
  Opcode.INVOKE_LAMBDA,
  Opcode.CALL,
  Opcode.RETURN,
  Opcode.ITER_INIT,
  Opcode.ITER_NEXT,
  Opcode.ITER_VALUE,
  Opcode.ITER_KEY,
  Opcode.GET_GLOBAL,
  Opcode.SET_GLOBAL
]

/-- The default case of the opcode dispatch switch in DoofVM::run: it
stores the instruction pointer back and throws
"Unimplemented or unknown opcode: " + std::to_string(opcode). -/
def dispatchDefault (opcode : Nat) : Except String StackFrame :=
  .error ("Unimplemented or unknown opcode: " ++ toString opcode)

/-- Thread-level interpreter state: the call stack (head of the list is
the innermost frame, i.e. the back of the C++ vector) together with the
main_return_value_ member declared at vm.h:132. -/
structure VMState where
  call_stack : List StackFrame
  main_return_value : Value

/-- The DoofVM constructor seeds the call stack with one 256-register main
frame; main_return_value_ is default-constructed to Null. -/
def DoofVM.init : VMState :=
  { call_stack := [StackFrame.new 256], main_return_value := Value.null }

/-- Case Opcode::RETURN of DoofVM::run (vm.cpp): validate register a,
capture the value, pop the frame, and when the stack is still non-empty
write the captured value into register 0 of the new top frame.  When the
stack becomes empty the captured value is dropped: no assignment to
main_return_value_ exists anywhere in the implementation. -/
def execReturn (s : VMState) (a : Nat) : Except String VMState := do
  match s.call_stack with
  | [] => .error "Call stack is empty"
  | frame :: rest => do
    let _ ← validate_register frame a
    let return_value := frame.registers.getD a Value.null
    match rest with
    | [] => .ok { s with call_stack := [] }
    | caller :: others =>
        .ok { s with call_stack :=
                { caller with registers := caller.registers.set 0 return_value } :: others }

/-- Argument-copy loop shared by CALL and INVOKE_LAMBDA (vm.cpp): for each
i below count, when base + i is within the caller window and i + 1 within
the callee window, callee register i + 1 receives caller register base + i. -/
def copy_arguments (callee caller : List Value) (base : Nat) (count : Nat) : List Value :=
  (List.range count).foldl
    (fun regs i =>
      if base + i < caller.length ∧ i + 1 < regs.length then
        regs.set (i + 1) (caller.getD (base + i) Value.null)
      else regs) callee

/-- Captured-value copy loop of INVOKE_LAMBDA (vm.cpp): captured value i
goes to register parameter_count + 1 + i of the lambda frame whenever that
target index is below the frame register count (the source compares the
int target only against the size, exactly as modelled here). -/
def copy_captures_loop (callee : List Value) (parameter_count : Int)
    (captured_values : List Value) (count : Nat) : List Value :=
  (List.range count).foldl
    (fun regs (i : Nat) =>
      let target : Int := parameter_count + 1 + (i : Int)
      if target < (regs.length : Int) then
        regs.set target.toNat (captured_values.getD i Value.null)
      else regs) callee

/-- The capture loop runs over every index of the captured-value list. -/
def copy_captures (callee : List Value) (parameter_count : Int) (captured_values : List Value) :
    List Value :=
  copy_captures_loop callee parameter_count captured_values captured_values.length

/-- Case Opcode::INVOKE_LAMBDA of DoofVM::run (vm.cpp): validate register
b, read the lambda, save the return address in the calling frame, push a
fresh 256-register frame starting at the lambda code index with
function_index -1, copy the first min(parameter_count, 16) arguments from
the caller window starting at a into callee registers 1.. and then copy
the captured values after the parameter slots. -/
def execInvokeLambda (s : VMState) (a b : Nat) : Except String VMState := do
  match s.call_stack with
  | [] => .error "Call stack is empty"
  | frame :: rest => do
    let _ ← validate_register frame b
    let lam ← (frame.registers.getD b Value.null).as_lambda
    let code_index := lam.1
    let parameter_count := lam.2.1
    let captured_values := lam.2.2
    let caller : StackFrame := { frame with instruction_pointer := frame.instruction_pointer + 1 }
    let lambda_frame : StackFrame :=
      { StackFrame.new 256 with instruction_pointer := code_index, function_index := -1 }
    let regs1 := copy_arguments lambda_frame.registers caller.registers a
        (min parameter_count 16).toNat
    let regs2 := copy_captures regs1 parameter_count captured_values
    .ok { s with call_stack := { lambda_frame with registers := regs2 } :: caller :: rest }

/-- Case Opcode::CALL of DoofVM::run (vm.cpp): validate register a and the
constant-pool index, save the return address, read the FunctionMetadata
fields (codeIndex = fields[2], registerCount = fields[1], parameterCount =
fields[0]), push a frame with registerCount registers starting at the
entry point, and copy parameterCount arguments from the caller window
starting at a into callee registers 1...  In the model the only object
variant is funcMeta, so the bad_variant_access of as_object on non-object
constants is folded into the FunctionMetadata cast failure. -/
def execCall (s : VMState) (a : Nat) (function_index : Nat) (constant_pool : List Value) :
    Except String VMState := do
  match s.call_stack with
  | [] => .error "Call stack is empty"
  | frame :: rest => do
    let _ ← validate_register frame a
    let _ ← if function_index < constant_pool.length then (.ok () : Except String Unit)
            else .error ("Constant pool index out of bounds: " ++ toString function_index)
    let caller : StackFrame := { frame with instruction_pointer := frame.instruction_pointer + 1 }
    match constant_pool.getD function_index Value.null with
    | .funcMeta fields => do
      let entry_point ← (fields.getD 2 Value.null).as_int
      let num_registers ← (fields.getD 1 Value.null).as_int
      let num_args ← (fields.getD 0 Value.null).as_int
      let callee : StackFrame :=
        { StackFrame.new num_registers.toNat with
            instruction_pointer := entry_point
            function_index := (function_index : Int) }
      let regs := copy_arguments callee.registers caller.registers a num_args.toNat
      .ok { s with call_stack := { callee with registers := regs } :: caller :: rest }
    | _ => .error "Constant pool entry is not a FunctionMetadata object"

/-- Lexicographic byte comparison: std::string operator< as used by the
ordered std::map keying the string map container. -/
def bytesLt : VMStr → VMStr → Bool
  | [], [] => false
  | [], _ :: _ => true
  | _ :: _, [] => false
  | a :: as, b :: bs => if a < b then true else if b < a then false else bytesLt as bs

/-- Contents of a Map value (value.h: using Map = std::map<std::string,
Value>), listed in ascending key order as the tree stores them. -/
abbrev MapEntries := List (VMStr × Value)

/-- Mutation performed by case Opcode::SET_MAP of DoofVM::handle_map_ops
(vm.cpp): (*map)[key] = value, i.e. insert-or-assign keeping the entries
ordered by the key comparison. -/
def mapAssign : MapEntries → VMStr → Value → MapEntries
  | [], k, v => [(k, v)]
  | (k0, v0) :: rest, k, v =>
    if bytesLt k k0 then (k, v) :: (k0, v0) :: rest
    else if k = k0 then (k, v) :: rest
    else (k0, v0) :: mapAssign rest k v

/-- Lookup performed by std::map::find on the ordered entries. -/
def mapFind : MapEntries → VMStr → Option Value
  | [], _ => none
  | (k0, v0) :: rest, k => if k = k0 then some v0 else mapFind rest k

/-- Value stored by case Opcode::GET_MAP of DoofVM::handle_map_ops
(vm.cpp): it != map->end() ? it->second : Value::make_null(). -/
def mapGetOrNull (m : MapEntries) (k : VMStr) : Value := (mapFind m k).getD Value.null

/-- Value stored by case Opcode::SIZE_MAP of DoofVM::handle_map_ops
(vm.cpp): Value::make_int(map->size()). -/
def mapSize (m : MapEntries) : Nat := m.length

/-- Iterator state (iterator.h / iterator.cpp).  Each concrete iterator
holds its container and a cursor into the container iteration order: the
ArrayIterator holds an explicit index, the others hold a std::iterator
pair which the model represents as a position in the iteration sequence. -/
inductive Iterator where
  | array (arr : List Value) (index : Nat)
  | set (elems : List Value) (cursor : Nat)
  | map (entries : List (VMStr × Value)) (cursor : Nat)
  | intSet (elems : List Int) (cursor : Nat)
  | intMap (entries : List (Int × Value)) (cursor : Nat)

/-- Iterator::has_next: the cursor has not reached the end of the
container (ArrayIterator additionally requires a non-null array pointer,
which the model always has). -/
def Iterator.has_next : Iterator → Bool
  | .array arr index => index < arr.length
  | .set elems cursor => cursor < elems.length
  | .map entries cursor => cursor < entries.length
  | .intSet elems cursor => cursor < elems.length
  | .intMap entries cursor => cursor < entries.length

/-- Iterator::get_value: the element at the cursor; throws the per-type
exhausted message when has_next is false. -/
def Iterator.get_value : Iterator → Except String Value
  | .array arr index =>
      if index < arr.length then .ok (arr.getD index Value.null)
      else .error "Array iterator exhausted"
  | .set elems cursor =>
      if cursor < elems.length then .ok (elems.getD cursor Value.null)
      else .error "Set iterator exhausted"
  | .map entries cursor =>
      if cursor < entries.length then .ok (entries.getD cursor ([], Value.null)).2
      else .error "Map iterator exhausted"
  | .intSet elems cursor =>
      if cursor < elems.length then .ok (Value.int (elems.getD cursor 0))
      else .error "Int set iterator exhausted"
  | .intMap entries cursor =>
      if cursor < entries.length then .ok (entries.getD cursor (0, Value.null)).2
      else .error "Int map iterator exhausted"

/-- Iterator::advance: move the cursor one step when has_next holds,
otherwise leave the iterator unchanged. -/
def Iterator.advance : Iterator → Iterator
  | .array arr index => if index < arr.length then .array arr (index + 1) else .array arr index
  | .set elems cursor => if cursor < elems.length then .set elems (cursor + 1) else .set elems cursor
  | .map entries cursor =>
      if cursor < entries.length then .map entries (cursor + 1) else .map entries cursor
  | .intSet elems cursor =>
      if cursor < elems.length then .intSet elems (cursor + 1) else .intSet elems cursor
  | .intMap entries cursor =>
      if cursor < entries.length then .intMap entries (cursor + 1) else .intMap entries cursor

/-- Case Opcode::ITER_NEXT of DoofVM::handle_iterator_ops (vm.cpp): the
destination receives make_bool(has_next) and the iterator is explicitly
not advanced. -/
def execIterNext (it : Iterator) : Value × Iterator := (Value.bool it.has_next, it)

/-- Case Opcode::ITER_VALUE of DoofVM::handle_iterator_ops (vm.cpp): read
the current value (may throw an exhausted error), store it, then advance
the iterator. -/
def execIterValue (it : Iterator) : Except String (Value × Iterator) := do
  let current_value ← it.get_value
  .ok (current_value, it.advance)

/-- The values an iterator has yet to yield, in iteration order; the
semantic yardstick the iterator claims are measured against. -/
def Iterator.remaining : Iterator → List Value
  | .array arr index => arr.drop index
  | .set elems cursor => elems.drop cursor
  | .map entries cursor => (entries.drop cursor).map (fun e => e.2)
  | .intSet elems cursor => (elems.drop cursor).map Value.int
  | .intMap entries cursor => (entries.drop cursor).map (fun e => e.2)

/-- One SourceMap entry of the DebugInfo record (debug.h,
struct SourceMapEntry). -/
structure SourceMapEntry where
  instructionIndex : Int
  sourceLine : Int
  sourceColumn : Int
  fileIndex : Int

/-- One breakpoint record (debug.h, struct Breakpoint). -/
structure Breakpoint where
  instructionIndex : Int
  sourceLine : Int
  fileIndex : Int
  enabled : Bool
  condition : VMStr

/-- Debugger bookkeeping (debug.h / debug.cpp, class DebugState),
restricted to the members the breakpoint claims touch: the loaded
SourceMap, the breakpoint list, the fast-lookup set of enabled
instruction indices, the id counter and the hasDebugInfo_ flag. -/
structure DebugState where
  hasDebugInfo : Bool
  sourceMap : List SourceMapEntry
  breakpoints : List Breakpoint
  instructionBreakpoints : List Int
  nextBreakpointId : Int

/-- Match test of the SourceMap scan in
DebugState::getInstructionFromSource: both the source line and the file
index agree. -/
def sourceMatches (sourceLine fileIndex : Int) (e : SourceMapEntry) : Bool :=
  decide (e.sourceLine = sourceLine) && decide (e.fileIndex = fileIndex)

/-- DebugState::getInstructionFromSource (debug.cpp): without debug info
return -1, otherwise return the instruction index of the first SourceMap
entry whose sourceLine and fileIndex both match, or -1 when none does. -/
def getInstructionFromSource (s : DebugState) (sourceLine fileIndex : Int) : Int :=
  if s.hasDebugInfo then
    match s.sourceMap.find? (sourceMatches sourceLine fileIndex) with
    | some e => e.instructionIndex
    | none => -1
  else -1

/-- DebugState::updateInstructionBreakpoints (debug.cpp): rebuild the
fast-lookup set from scratch out of the instruction indices of the enabled
breakpoints. -/
def updateInstructionBreakpoints (breakpoints : List Breakpoint) : List Int :=
  (breakpoints.filter (fun bp => bp.enabled)).map (fun bp => bp.instructionIndex)

/-- DebugState::hasBreakpointAtInstruction (debug.cpp): membership in the
fast-lookup set. -/
def hasBreakpointAtInstruction (s : DebugState) (instructionIndex : Int) : Bool :=
  s.instructionBreakpoints.contains instructionIndex

/-- DebugState::addBreakpoint (debug.cpp): resolve the source location to
an instruction index; on failure return -1 without touching the state; on
success append an enabled breakpoint bound to that instruction, rebuild
the fast-lookup set, and return the next breakpoint id. -/
def addBreakpoint (s : DebugState) (sourceLine fileIndex : Int) (condition : VMStr := []) :
    Int × DebugState :=
  let instructionIndex := getInstructionFromSource s sourceLine fileIndex
  if instructionIndex = -1 then (-1, s)
  else
    let bp : Breakpoint :=
      { instructionIndex := instructionIndex
        sourceLine := sourceLine
        fileIndex := fileIndex
        enabled := true
        condition := condition }
    let breakpoints := s.breakpoints ++ [bp]
    (s.nextBreakpointId,
      { s with
          breakpoints := breakpoints
          instructionBreakpoints := updateInstructionBreakpoints breakpoints
          nextBreakpointId := s.nextBreakpointId + 1 })

namespace doof_runtime

/-- Task states (doof_runtime.h, enum class TaskState). -/
inductive TaskState where
  | PENDING
  | RUNNING
  | COMPLETED
deriving DecidableEq

/-- Position of a state along the Pending → Running → Completed chain. -/
def TaskState.rank : TaskState → Nat
  | .PENDING => 0
  | .RUNNING => 1
  | .COMPLETED => 2

/-- A task (doof_runtime.h, TaskBase plus the Task template body): the
atomic state, the stored callable and its optional result.  execCount is a
ghost counter recording how many times execute() has been entered; it has
no C++ counterpart and exists only to state the at-most-once property. -/
structure Task (α : Type) where
  state : TaskState
  func : Unit → α
  result : Option α
  execCount : Nat

/-- The Pending → Running compare-and-swap at the start of TaskBase::run
(doof_runtime.cpp): it succeeds exactly when the state is PENDING. -/
def Task.casToRunning (t : Task α) : Task α × Bool :=
  if t.state = TaskState.PENDING then ({ t with state := .RUNNING }, true) else (t, false)

/-- Task::execute (doof_runtime.h): result = func(). -/
def Task.execute (t : Task α) : Task α :=
  { t with result := some (t.func ()), execCount := t.execCount + 1 }

/-- The completion write at the end of TaskBase::run: state = COMPLETED
under the mutex. -/
def Task.complete (t : Task α) : Task α := { t with state := .COMPLETED }

/-- TaskBase::run (doof_runtime.cpp): when the compare-and-swap from
PENDING to RUNNING succeeds, execute and mark COMPLETED; otherwise do
nothing. -/
def Task.run (t : Task α) : Task α :=
  match t.casToRunning with
  | (started, true) => started.execute.complete
  | (_, false) => t

end doof_runtime

/-! Helper lemmas. -/

/-- wrap32 is congruent to its argument modulo 2^32. -/
theorem wrap32_emod (x : Int) : wrap32 x % 2 ^ 32 = x % 2 ^ 32 := by
  unfold wrap32; omega

/-- wrap32 lands in the int32_t range. -/
theorem wrap32_range (x : Int) : -(2 ^ 31) ≤ wrap32 x ∧ wrap32 x < 2 ^ 31 := by
  unfold wrap32; omega

/-- wrap32 is the identity on representable values. -/
theorem wrap32_eq_self {x : Int} (h1 : -(2 ^ 31) ≤ x) (h2 : x < 2 ^ 31) : wrap32 x = x := by
  unfold wrap32; omega

/-- bytesLt is irreflexive. -/
theorem bytesLt_irrefl (k : VMStr) : bytesLt k k = false := by
  induction k with
  | nil => rfl
  | cons a as ih => simp [bytesLt, ih]

/-- C1: the claim reads: executing the CLASS_TO_JSON opcode stores into
the destination register the JSON text of the source value.  The dispatch
switch of DoofVM::run has no case for CLASS_TO_JSON (0x6E = 110), so the
opcode falls into the default case and raises the unimplemented-opcode
error instead of producing any JSON, even though opcodes.h documents the
opcode as r0 = json_string(r1) and the value_to_json helper exists. -/
theorem c1_class_to_json_unimplemented :
    runSwitchCases.contains Opcode.CLASS_TO_JSON = false ∧
    dispatchDefault Opcode.CLASS_TO_JSON =
      .error "Unimplemented or unknown opcode: 110" := by
  constructor
  · decide
  · rfl

/-- A thread state about to execute RETURN 0 on its last frame, with the
function result Int 42 sitting in register 0. -/
def returnOnlyState : VMState :=
  { call_stack := [{ registers := [Value.int 42], instruction_pointer := 0, function_index := -1 }]
    main_return_value := Value.null }

/-- C2: the claim reads: when RETURN empties the call stack the captured
value is stored as the thread return value.  Executing RETURN 0 on the
last frame with register 0 = Int 42 pops the frame and leaves
main_return_value_ at its default Null: the implementation never assigns
the member (vm.h:132) and get_result is declared but never defined, so
the captured value is dropped. -/
theorem c2_return_drops_final_value :
    execReturn returnOnlyState 0 =
      .ok { call_stack := [], main_return_value := Value.null } ∧
    Value.null ≠ Value.int 42 := by
  constructor
  · rfl
  · simp

/-- C4 counterexample: the claim reads: DIV_INT or MOD_INT with divisor 0
raises the error "Division by zero".  MOD_INT with divisor 0 raises
"Modulo by zero", a different message. -/
theorem c4_counterexample :
    execModInt divByZeroFrame 0 0 1 = .error "Modulo by zero" ∧
    (Except.error "Modulo by zero" : Except String StackFrame) ≠
      .error "Division by zero" := by
  constructor
  · rfl
  · simp

/-- Evaluation of the DIV_INT case once the register validations pass and
both operands are Ints. -/
theorem execDivInt_eq (f : StackFrame) (a b c : Nat) (l r : Int)
    (ha : a < f.registers.length) (hb : b < f.registers.length) (hc : c < f.registers.length)
    (hvb : f.registers.getD b Value.null = Value.int l)
    (hvc : f.registers.getD c Value.null = Value.int r) :
    execDivInt f a b c =
      if r = 0 then .error "Division by zero"
      else .ok { f with registers := f.registers.set a (Value.int (div_int_result l r)) } := by
  unfold execDivInt validate_register
  rw [if_pos ha, if_pos hb, if_pos hc, hvb, hvc]
  rfl

/-- Evaluation of the MOD_INT case once the register validations pass and
both operands are Ints. -/
theorem execModInt_eq (f : StackFrame) (a b c : Nat) (l r : Int)
    (ha : a < f.registers.length) (hb : b < f.registers.length) (hc : c < f.registers.length)
    (hvb : f.registers.getD b Value.null = Value.int l)
    (hvc : f.registers.getD c Value.null = Value.int r) :
    execModInt f a b c =
      if r = 0 then .error "Modulo by zero"
      else .ok { f with registers := f.registers.set a (Value.int (mod_int_result l r)) } := by
  unfold execModInt validate_register
  rw [if_pos ha, if_pos hb, if_pos hc, hvb, hvc]
  rfl

/-- C4 (amended): with Int operands in validated registers, DIV_INT with a
zero divisor raises "Division by zero" while MOD_INT with a zero divisor
raises "Modulo by zero"; with a non-zero divisor both succeed without
error. -/
theorem c4_div_mod_by_zero (f : StackFrame) (a b c : Nat) (l r : Int)
    (ha : a < f.registers.length) (hb : b < f.registers.length) (hc : c < f.registers.length)
    (hvb : f.registers.getD b Value.null = Value.int l)
    (hvc : f.registers.getD c Value.null = Value.int r) :
    (r = 0 →
      execDivInt f a b c = .error "Division by zero" ∧
      execModInt f a b c = .error "Modulo by zero") ∧
    (r ≠ 0 →
      (∃ f1, execDivInt f a b c = .ok f1) ∧ (∃ f2, execModInt f a b c = .ok f2)) := by
  rw [execDivInt_eq f a b c l r ha hb hc hvb hvc, execModInt_eq f a b c l r ha hb hc hvb hvc]
  constructor
  · intro h0
    rw [if_pos h0, if_pos h0]
    exact ⟨rfl, rfl⟩
  · intro h0
    rw [if_neg h0, if_neg h0]
    exact ⟨⟨_, rfl⟩, ⟨_, rfl⟩⟩

/-- Witness for C4 at a concrete frame: register 1 holds Int 0 as the zero
divisor, register 0 holds Int 1. -/
theorem c4_div_mod_by_zero_witness :
    execDivInt divByZeroFrame 0 0 1 = .error "Division by zero" ∧
    execModInt divByZeroFrame 0 0 1 = .error "Modulo by zero" :=
  (c4_div_mod_by_zero divByZeroFrame 0 0 1 1 0 (by decide) (by decide) (by decide)
    rfl rfl).1 rfl

/-- C8: the quotient-remainder identity DIV_INT(a,b) * b + MOD_INT(a,b) =
a holds in 32-bit arithmetic for every pair of int32_t values with a
non-zero divisor (C++ / and % truncate toward zero and satisfy the exact
identity; the single pair whose quotient overflows, INT32_MIN / -1, still
satisfies the identity after the two's-complement wrap). -/
theorem c8_div_mod_identity (a b : Int) (ha : int32InRange a) (hb : int32InRange b)
    (hb0 : b ≠ 0) :
    wrap32 (div_int_result a b * b + mod_int_result a b) = a := by
  obtain ⟨ha1, ha2⟩ := ha
  have key : b * a.tdiv b + a.tmod b = a := Int.tdiv_add_tmod a b
  have hq := wrap32_emod (a.tdiv b)
  have hr := wrap32_emod (a.tmod b)
  have hmul : div_int_result a b * b % 2 ^ 32 = a.tdiv b * b % 2 ^ 32 := by
    unfold div_int_result
    conv_lhs => rw [Int.mul_emod, hq, ← Int.mul_emod]
  have hsum : (div_int_result a b * b + mod_int_result a b) % 2 ^ 32 =
      (a.tdiv b * b + a.tmod b) % 2 ^ 32 := by
    unfold mod_int_result
    conv_lhs => rw [Int.add_emod, hmul, hr, ← Int.add_emod]
  have hval : a.tdiv b * b + a.tmod b = a := by rw [Int.mul_comm]; exact key
  have hw := wrap32_emod (div_int_result a b * b + mod_int_result a b)
  have hrange := wrap32_range (div_int_result a b * b + mod_int_result a b)
  rw [hsum, hval] at hw
  unfold INT32_MIN at ha1
  omega

/-- Witness for C8 at a = -7, b = 3 (and at the overflowing pair
INT32_MIN, -1). -/
theorem c8_div_mod_identity_witness :
    wrap32 (div_int_result (-7) 3 * 3 + mod_int_result (-7) 3) = -7 ∧
    wrap32 (div_int_result (-(2 ^ 31)) (-1) * (-1) + mod_int_result (-(2 ^ 31)) (-1)) =
      -(2 ^ 31) :=
  ⟨c8_div_mod_identity (-7) 3 (by constructor <;> decide) (by constructor <;> decide)
      (by decide),
   c8_div_mod_identity (-(2 ^ 31)) (-1) (by constructor <;> decide)
      (by constructor <;> decide) (by decide)⟩

/-- C9: overwriting a string map key: SET_MAP(m, k, v1) then
SET_MAP(m, k, v2) makes GET_MAP(m, k) produce v2 and leaves SIZE_MAP
unchanged relative to the state after the first SET_MAP alone. -/
theorem c9_map_overwrite (m : MapEntries) (k : VMStr) (v1 v2 : Value) :
    mapGetOrNull (mapAssign (mapAssign m k v1) k v2) k = v2 ∧
    mapSize (mapAssign (mapAssign m k v1) k v2) = mapSize (mapAssign m k v1) := by
  induction m with
  | nil =>
      simp [mapAssign, bytesLt_irrefl, mapGetOrNull, mapFind, mapSize]
  | cons hd tl ih =>
      obtain ⟨k0, v0⟩ := hd
      by_cases h1 : bytesLt k k0
      · simp [mapAssign, h1, bytesLt_irrefl, mapGetOrNull, mapFind, mapSize]
      · by_cases h2 : k = k0
        · subst h2
          simp [mapAssign, bytesLt_irrefl, mapGetOrNull, mapFind, mapSize]
        · obtain ⟨ihg, ihs⟩ := ih
          constructor
          · simpa [mapAssign, h1, h2, mapGetOrNull, mapFind] using ihg
          · simpa [mapAssign, h1, h2, mapSize] using ihs

/-- Reduction of an Except do-block over a successful first step. -/
theorem except_ok_bind {α β : Type} (a : α) (f : α → Except String β) :
    (do let x ← Except.ok a; f x) = f a := rfl

/-- Reduction of an Except do-block over a failing first step. -/
theorem except_error_bind {α β : Type} (e : String) (f : α → Except String β) :
    (do let x ← (Except.error e : Except String α); f x) = Except.error e := rfl

/-- C5: ITER_NEXT stores a Bool that is true exactly when elements remain
and leaves the iterator position untouched; ITER_VALUE on a non-exhausted
iterator stores the current element and advances the position by one (the
remaining sequence loses exactly its head); ITER_VALUE on an exhausted
iterator raises a runtime error. -/
theorem c5_iterator (it : Iterator) :
    ((execIterNext it).1 = Value.bool true ↔ it.remaining ≠ []) ∧
    (execIterNext it).2 = it ∧
    (it.remaining ≠ [] →
      ∃ v it2, execIterValue it = .ok (v, it2) ∧ it.remaining = v :: it2.remaining) ∧
    (it.remaining = [] → ∃ msg, execIterValue it = .error msg) := by
  cases it with
  | array arr i =>
      refine ⟨?_, rfl, ?_, ?_⟩
      · simp only [execIterNext, Iterator.has_next, Iterator.remaining, ne_eq,
          List.drop_eq_nil_iff, Value.bool.injEq, decide_eq_true_eq]
        omega
      · intro hne
        simp only [Iterator.remaining, ne_eq, List.drop_eq_nil_iff] at hne
        have hlt : i < arr.length := by omega
        refine ⟨arr[i], .array arr (i + 1), ?_, ?_⟩
        · simp [execIterValue, Iterator.get_value, Iterator.advance, hlt, List.getD,
            List.getElem?_eq_getElem hlt, except_ok_bind]
        · simpa [Iterator.remaining] using List.drop_eq_getElem_cons hlt
      · intro hnil
        simp only [Iterator.remaining, List.drop_eq_nil_iff] at hnil
        exact ⟨"Array iterator exhausted", by
          simp [execIterValue, Iterator.get_value, Nat.not_lt.mpr hnil, except_error_bind]⟩
  | set elems i =>
      refine ⟨?_, rfl, ?_, ?_⟩
      · simp only [execIterNext, Iterator.has_next, Iterator.remaining, ne_eq,
          List.drop_eq_nil_iff, Value.bool.injEq, decide_eq_true_eq]
        omega
      · intro hne
        simp only [Iterator.remaining, ne_eq, List.drop_eq_nil_iff] at hne
        have hlt : i < elems.length := by omega
        refine ⟨elems[i], .set elems (i + 1), ?_, ?_⟩
        · simp [execIterValue, Iterator.get_value, Iterator.advance, hlt, List.getD,
            List.getElem?_eq_getElem hlt, except_ok_bind]
        · simpa [Iterator.remaining] using List.drop_eq_getElem_cons hlt
      · intro hnil
        simp only [Iterator.remaining, List.drop_eq_nil_iff] at hnil
        exact ⟨"Set iterator exhausted", by
          simp [execIterValue, Iterator.get_value, Nat.not_lt.mpr hnil, except_error_bind]⟩
  | map entries i =>
      refine ⟨?_, rfl, ?_, ?_⟩
      · simp only [execIterNext, Iterator.has_next, Iterator.remaining, ne_eq,
          List.map_eq_nil_iff, List.drop_eq_nil_iff, Value.bool.injEq, decide_eq_true_eq]
        omega
      · intro hne
        simp only [Iterator.remaining, ne_eq, List.map_eq_nil_iff,
          List.drop_eq_nil_iff] at hne
        have hlt : i < entries.length := by omega
        refine ⟨entries[i].2, .map entries (i + 1), ?_, ?_⟩
        · simp [execIterValue, Iterator.get_value, Iterator.advance, hlt, List.getD,
            List.getElem?_eq_getElem hlt, except_ok_bind]
        · simp only [Iterator.remaining]
          rw [List.drop_eq_getElem_cons hlt, List.map_cons]
      · intro hnil
        simp only [Iterator.remaining, List.map_eq_nil_iff, List.drop_eq_nil_iff] at hnil
        exact ⟨"Map iterator exhausted", by
          simp [execIterValue, Iterator.get_value, Nat.not_lt.mpr hnil, except_error_bind]⟩
  | intSet elems i =>
      refine ⟨?_, rfl, ?_, ?_⟩
      · simp only [execIterNext, Iterator.has_next, Iterator.remaining, ne_eq,
          List.map_eq_nil_iff, List.drop_eq_nil_iff, Value.bool.injEq, decide_eq_true_eq]
        omega
      · intro hne
        simp only [Iterator.remaining, ne_eq, List.map_eq_nil_iff,
          List.drop_eq_nil_iff] at hne
        have hlt : i < elems.length := by omega
        refine ⟨Value.int elems[i], .intSet elems (i + 1), ?_, ?_⟩
        · simp [execIterValue, Iterator.get_value, Iterator.advance, hlt, List.getD,
            List.getElem?_eq_getElem hlt, except_ok_bind]
        · simp only [Iterator.remaining]
          rw [List.drop_eq_getElem_cons hlt, List.map_cons]
      · intro hnil
        simp only [Iterator.remaining, List.map_eq_nil_iff, List.drop_eq_nil_iff] at hnil
        exact ⟨"Int set iterator exhausted", by
          simp [execIterValue, Iterator.get_value, Nat.not_lt.mpr hnil, except_error_bind]⟩
  | intMap entries i =>
      refine ⟨?_, rfl, ?_, ?_⟩
      · simp only [execIterNext, Iterator.has_next, Iterator.remaining, ne_eq,
          List.map_eq_nil_iff, List.drop_eq_nil_iff, Value.bool.injEq, decide_eq_true_eq]
        omega
      · intro hne
        simp only [Iterator.remaining, ne_eq, List.map_eq_nil_iff,
          List.drop_eq_nil_iff] at hne
        have hlt : i < entries.length := by omega
        refine ⟨entries[i].2, .intMap entries (i + 1), ?_, ?_⟩
        · simp [execIterValue, Iterator.get_value, Iterator.advance, hlt, List.getD,
            List.getElem?_eq_getElem hlt, except_ok_bind]
        · simp only [Iterator.remaining]
          rw [List.drop_eq_getElem_cons hlt, List.map_cons]
      · intro hnil
        simp only [Iterator.remaining, List.map_eq_nil_iff, List.drop_eq_nil_iff] at hnil
        exact ⟨"Int map iterator exhausted", by
          simp [execIterValue, Iterator.get_value, Nat.not_lt.mpr hnil, except_error_bind]⟩

/-- Witness for C5 at a two-element array iterator sitting on the last
element: has-next is reported without advancing, reading yields the
element and exhausts the iterator. -/
theorem c5_iterator_witness :
    (Iterator.array [Value.int 4, Value.int 5] 1).remaining ≠ [] ∧
    ∃ v it2, execIterValue (Iterator.array [Value.int 4, Value.int 5] 1) = .ok (v, it2) ∧
      (Iterator.array [Value.int 4, Value.int 5] 1).remaining = v :: it2.remaining :=
  ⟨by simp [Iterator.remaining],
   (c5_iterator (Iterator.array [Value.int 4, Value.int 5] 1)).2.2.1
     (by simp [Iterator.remaining])⟩

/-- C6: addBreakpoint resolves (source_line, file_index) against the
SourceMap: when a first matching entry e exists the new breakpoint is
bound to e.instructionIndex, appended to the list, and the rebuilt
fast-lookup set makes hasBreakpointAtInstruction report it; when no entry
matches the call returns -1 and the state is untouched.  Loaded source
maps carry non-negative instruction indices, which keeps the -1 failure
sentinel of getInstructionFromSource unambiguous. -/
theorem c6_add_breakpoint (s : DebugState) (line file : Int) (cond : VMStr)
    (hinfo : s.hasDebugInfo = true)
    (hnn : ∀ e ∈ s.sourceMap, 0 ≤ e.instructionIndex) :
    (∀ e, s.sourceMap.find? (sourceMatches line file) = some e →
       addBreakpoint s line file cond =
         (s.nextBreakpointId,
           { s with
               breakpoints := s.breakpoints ++
                 [{ instructionIndex := e.instructionIndex, sourceLine := line,
                    fileIndex := file, enabled := true, condition := cond }]
               instructionBreakpoints := updateInstructionBreakpoints (s.breakpoints ++
                 [{ instructionIndex := e.instructionIndex, sourceLine := line,
                    fileIndex := file, enabled := true, condition := cond }])
               nextBreakpointId := s.nextBreakpointId + 1 }) ∧
       hasBreakpointAtInstruction (addBreakpoint s line file cond).2 e.instructionIndex = true) ∧
    (s.sourceMap.find? (sourceMatches line file) = none →
       addBreakpoint s line file cond = (-1, s)) := by
  constructor
  · intro e he
    have hmem : e ∈ s.sourceMap := List.mem_of_find?_eq_some he
    have hne : e.instructionIndex ≠ -1 := by have := hnn e hmem; omega
    have hres : getInstructionFromSource s line file = e.instructionIndex := by
      unfold getInstructionFromSource
      simp [hinfo, he]
    have hmain : addBreakpoint s line file cond =
        (s.nextBreakpointId,
          { s with
              breakpoints := s.breakpoints ++
                [{ instructionIndex := e.instructionIndex, sourceLine := line,
                   fileIndex := file, enabled := true, condition := cond }]
              instructionBreakpoints := updateInstructionBreakpoints (s.breakpoints ++
                [{ instructionIndex := e.instructionIndex, sourceLine := line,
                   fileIndex := file, enabled := true, condition := cond }])
              nextBreakpointId := s.nextBreakpointId + 1 }) := by
      unfold addBreakpoint
      rw [hres, if_neg hne]
    refine ⟨hmain, ?_⟩
    rw [hmain]
    unfold hasBreakpointAtInstruction updateInstructionBreakpoints
    simp [List.filter_append, List.map_append]
  · intro hnone
    unfold addBreakpoint getInstructionFromSource
    simp [hinfo, hnone]

/-- A small debug state with a three-entry source map, two of whose
entries share source line 10. -/
def sampleDebugState : DebugState :=
  { hasDebugInfo := true
    sourceMap := [⟨3, 10, 0, 0⟩, ⟨7, 10, 0, 0⟩, ⟨9, 12, 0, 0⟩]
    breakpoints := []
    instructionBreakpoints := []
    nextBreakpointId := 1 }

/-- Witness for C6: adding a breakpoint at line 10 binds it to
instruction 3 (the first of the two matching entries) and the fast lookup
reports it; adding one at the unmapped line 99 is rejected with -1 and
leaves the state unchanged. -/
theorem c6_add_breakpoint_witness :
    hasBreakpointAtInstruction (addBreakpoint sampleDebugState 10 0 []).2 3 = true ∧
    addBreakpoint sampleDebugState 99 0 [] = (-1, sampleDebugState) :=
  ⟨((c6_add_breakpoint sampleDebugState 10 0 [] rfl (by decide)).1 ⟨3, 10, 0, 0⟩ rfl).2,
   (c6_add_breakpoint sampleDebugState 99 0 [] rfl (by decide)).2 rfl⟩

namespace doof_runtime

/-- C7: the task state only moves along the chain PENDING, RUNNING,
COMPLETED; run on a non-PENDING task is a no-op preserving the whole task
(state and result included); a run either keeps the state or carries a
PENDING task to COMPLETED (through the RUNNING intermediate of the
compare-and-swap); and starting from a fresh PENDING task any number of
run calls enters execute at most once. -/
theorem c7_task_run_once {α : Type} :
    (∀ t : Task α, t.state ≠ .PENDING → t.run = t) ∧
    (∀ t : Task α, t.state.rank ≤ t.run.state.rank) ∧
    (∀ t : Task α, t.run.state = t.state ∨
       (t.state = .PENDING ∧ t.run.state = .COMPLETED)) ∧
    (∀ t : Task α, t.state = .PENDING → t.execCount = 0 →
       ∀ n : Nat, ((Task.run)^[n] t).execCount ≤ 1) := by
  have hnoop : ∀ t : Task α, t.state ≠ .PENDING → t.run = t := by
    intro t h
    simp [Task.run, Task.casToRunning, h]
  have hpend : ∀ t : Task α, t.state = .PENDING →
      t.run = { t with state := .COMPLETED, result := some (t.func ()),
                       execCount := t.execCount + 1 } := by
    intro t h
    simp [Task.run, Task.casToRunning, h, Task.execute, Task.complete]
  refine ⟨hnoop, ?_, ?_, ?_⟩
  · intro t
    by_cases h : t.state = .PENDING
    · rw [hpend t h, h]
      simp [TaskState.rank]
    · rw [hnoop t h]
  · intro t
    by_cases h : t.state = .PENDING
    · exact Or.inr ⟨h, by rw [hpend t h]⟩
    · exact Or.inl (by rw [hnoop t h])
  · intro t hp hc n
    have key : ∀ (m : Nat) (u : Task α),
        ((u.state = .PENDING ∧ u.execCount = 0) ∨
         (u.state ≠ .PENDING ∧ u.execCount ≤ 1)) →
        ((Task.run)^[m] u).execCount ≤ 1 := by
      intro m
      induction m with
      | zero => intro u hinv; rcases hinv with ⟨_, h2⟩ | ⟨_, h2⟩ <;> simpa using by omega
      | succ k ih =>
          intro u hinv
          rw [Function.iterate_succ_apply]
          apply ih
          rcases hinv with ⟨h1, h2⟩ | ⟨h1, h2⟩
          · right
            rw [hpend u h1]
            exact ⟨by simp, by simp [h2]⟩
          · rw [hnoop u h1]
            exact Or.inr ⟨h1, h2⟩
    exact key n t (Or.inl ⟨hp, hc⟩)

/-- A fresh pending task computing 7. -/
def sampleTask : Task Nat :=
  { state := .PENDING, func := fun _ => 7, result := none, execCount := 0 }

/-- Witness for C7: three consecutive run calls on a fresh pending task
enter execute at most once. -/
theorem c7_task_run_once_witness : ((Task.run)^[3] sampleTask).execCount ≤ 1 :=
  (c7_task_run_once (α := Nat)).2.2.2 sampleTask rfl rfl 3

end doof_runtime

/-- getD after set at a different index is unchanged. -/
theorem getD_set_ne (l : List Value) (i j : Nat) (a : Value) (h : i ≠ j) :
    (l.set i a).getD j Value.null = l.getD j Value.null := by
  simp [List.getD, List.getElem?_set_ne h]

/-- getD after set at an in-bounds index reads the written value. -/
theorem getD_set_self (l : List Value) (i : Nat) (a : Value) (h : i < l.length) :
    (l.set i a).getD i Value.null = a := by
  simp [List.getD, List.getElem?_set_self, h]

/-- getD over a replicate of nulls is null at every index. -/
theorem getD_replicate_null (n j : Nat) :
    ((List.replicate n Value.null).getD j Value.null) = Value.null := by
  rcases Nat.lt_or_ge j n with h | h
  · simp [List.getD, List.getElem?_replicate, h]
  · simp [List.getD, List.getElem?_replicate, Nat.not_lt.mpr h]

/-- Unrolling of the argument-copy loop by its last iteration. -/
theorem copy_arguments_succ (callee caller : List Value) (base n : Nat) :
    copy_arguments callee caller base (n + 1) =
      if base + n < caller.length ∧ n + 1 < (copy_arguments callee caller base n).length then
        (copy_arguments callee caller base n).set (n + 1) (caller.getD (base + n) Value.null)
      else copy_arguments callee caller base n := by
  unfold copy_arguments
  rw [List.range_succ, List.foldl_append, List.foldl_cons, List.foldl_nil]

/-- The argument-copy loop preserves the register-window length. -/
theorem copy_arguments_length (callee caller : List Value) (base count : Nat) :
    (copy_arguments callee caller base count).length = callee.length := by
  induction count with
  | zero => rfl
  | succ n ih =>
      rw [copy_arguments_succ]
      split
      · rw [List.length_set, ih]
      · exact ih

/-- Register slots other than 1..count are untouched by the argument-copy
loop. -/
theorem copy_arguments_getD_not_written (callee caller : List Value) (base count j : Nat)
    (hj : j = 0 ∨ count < j) :
    (copy_arguments callee caller base count).getD j Value.null = callee.getD j Value.null := by
  induction count with
  | zero => rfl
  | succ n ih =>
      have hne : n + 1 ≠ j := by omega
      rw [copy_arguments_succ]
      split
      · rw [getD_set_ne _ _ _ _ hne]
        exact ih (by omega)
      · exact ih (by omega)

/-- Register slot i + 1 receives caller slot base + i whenever iteration i
of the argument-copy loop runs with both guards holding. -/
theorem copy_arguments_getD_written (callee caller : List Value) (base count i : Nat)
    (hi : i < count) (hbase : base + i < caller.length) (hcal : i + 1 < callee.length) :
    (copy_arguments callee caller base count).getD (i + 1) Value.null =
      caller.getD (base + i) Value.null := by
  induction count with
  | zero => omega
  | succ n ih =>
      rw [copy_arguments_succ]
      rcases Nat.lt_or_ge i n with hin | hin
      · have hne : n + 1 ≠ i + 1 := by omega
        split
        · rw [getD_set_ne _ _ _ _ hne]
          exact ih hin
        · exact ih hin
      · have hieq : i = n := by omega
        subst hieq
        rw [if_pos ⟨hbase, by rw [copy_arguments_length]; exact hcal⟩]
        exact getD_set_self _ _ _ (by rw [copy_arguments_length]; exact hcal)

/-- Unrolling of the capture-copy loop by its last iteration. -/
theorem copy_captures_loop_succ (callee : List Value) (pc : Int) (cv : List Value) (n : Nat) :
    copy_captures_loop callee pc cv (n + 1) =
      if pc + 1 + (n : Int) < ((copy_captures_loop callee pc cv n).length : Int) then
        (copy_captures_loop callee pc cv n).set (pc + 1 + (n : Int)).toNat
          (cv.getD n Value.null)
      else copy_captures_loop callee pc cv n := by
  unfold copy_captures_loop
  rw [List.range_succ, List.foldl_append, List.foldl_cons, List.foldl_nil]

/-- The capture-copy loop preserves the register-window length. -/
theorem copy_captures_loop_length (callee : List Value) (pc : Int) (cv : List Value)
    (count : Nat) :
    (copy_captures_loop callee pc cv count).length = callee.length := by
  induction count with
  | zero => rfl
  | succ n ih =>
      rw [copy_captures_loop_succ]
      split
      · rw [List.length_set, ih]
      · exact ih

/-- Register slots strictly below pc + 1 or strictly above pc + count are
untouched by the capture-copy loop. -/
theorem copy_captures_loop_getD_not_target (callee : List Value) (pc : Int) (cv : List Value)
    (count j : Nat) (hpc : 0 ≤ pc)
    (hj : (j : Int) < pc + 1 ∨ pc + (count : Int) < (j : Int)) :
    (copy_captures_loop callee pc cv count).getD j Value.null = callee.getD j Value.null := by
  induction count with
  | zero => rfl
  | succ n ih =>
      rw [copy_captures_loop_succ]
      have hweak : (j : Int) < pc + 1 ∨ pc + (n : Int) < (j : Int) := by
        rcases hj with h | h
        · exact Or.inl h
        · exact Or.inr (by push_cast at h ⊢; omega)
      split
      · have hne : (pc + 1 + (n : Int)).toNat ≠ j := by
          rcases hj with h | h <;> · push_cast at h; omega
        rw [getD_set_ne _ _ _ _ hne]
        exact ih hweak
      · exact ih hweak

/-- Register slot pc + 1 + i receives captured value i whenever iteration
i of the capture-copy loop runs with its guard holding. -/
theorem copy_captures_loop_getD_target (callee : List Value) (pc : Int) (cv : List Value)
    (count i : Nat) (hpc : 0 ≤ pc) (hi : i < count)
    (hlt : pc + 1 + (i : Int) < (callee.length : Int)) :
    (copy_captures_loop callee pc cv count).getD (pc + 1 + (i : Int)).toNat Value.null =
      cv.getD i Value.null := by
  induction count with
  | zero => omega
  | succ n ih =>
      rw [copy_captures_loop_succ]
      rcases Nat.lt_or_ge i n with hin | hin
      · have hne : (pc + 1 + (n : Int)).toNat ≠ (pc + 1 + (i : Int)).toNat := by omega
        split
        · rw [getD_set_ne _ _ _ _ hne]
          exact ih hin
        · exact ih hin
      · have hieq : i = n := by omega
        subst hieq
        rw [if_pos (by rw [copy_captures_loop_length]; exact hlt)]
        have hbound : (pc + 1 + (i : Int)).toNat < (copy_captures_loop callee pc cv i).length := by
          rw [copy_captures_loop_length]; omega
        exact getD_set_self _ _ _ hbound

/-- Evaluation of the INVOKE_LAMBDA case once the register validation
passes and register b holds a lambda. -/
theorem execInvokeLambda_eq (s : VMState) (frame : StackFrame) (rest : List StackFrame)
    (a b : Nat) (ci pc : Int) (cv : List Value)
    (hs : s.call_stack = frame :: rest)
    (hb : b < frame.registers.length)
    (hlam : frame.registers.getD b Value.null = Value.lambda ci pc cv) :
    execInvokeLambda s a b =
      .ok { s with call_stack :=
        { registers := copy_captures
            (copy_arguments (List.replicate 256 Value.null) frame.registers a
              (min pc 16).toNat) pc cv
          instruction_pointer := ci
          function_index := -1 } ::
        { frame with instruction_pointer := frame.instruction_pointer + 1 } :: rest } := by
  unfold execInvokeLambda validate_register
  rw [hs]
  simp only [if_pos hb, hlam, Value.as_lambda, except_ok_bind]
  rfl

/-- Evaluation of the CALL case once the register and constant-pool
validations pass and the constant is a FunctionMetadata record with Int
fields. -/
theorem execCall_eq (s : VMState) (frame : StackFrame) (rest : List StackFrame)
    (a fidx : Nat) (pool fields : List Value) (P R E : Int)
    (hs : s.call_stack = frame :: rest)
    (ha : a < frame.registers.length)
    (hf : fidx < pool.length)
    (hmeta : pool.getD fidx Value.null = Value.funcMeta fields)
    (h2 : fields.getD 2 Value.null = Value.int E)
    (h1 : fields.getD 1 Value.null = Value.int R)
    (h0 : fields.getD 0 Value.null = Value.int P) :
    execCall s a fidx pool =
      .ok { s with call_stack :=
        { registers := copy_arguments (List.replicate R.toNat Value.null) frame.registers a
            P.toNat
          instruction_pointer := E
          function_index := (fidx : Int) } ::
        { frame with instruction_pointer := frame.instruction_pointer + 1 } :: rest } := by
  unfold execCall validate_register
  rw [hs]
  simp only [if_pos ha, if_pos hf, hmeta, h2, h1, h0, Value.as_int, except_ok_bind]
  rfl

/-- A caller frame whose registers 0..16 hold Ints 100..116 and whose
register 17 holds a lambda with 17 parameters and no captures. -/
def lambdaCallerFrame : StackFrame :=
  { registers := (List.range 17).map (fun i => Value.int (100 + (i : Int))) ++
      [Value.lambda 7 17 []]
    instruction_pointer := 0
    function_index := -1 }

/-- A thread state about to execute INVOKE_LAMBDA 0, 17 on that frame. -/
def lambdaState : VMState :=
  { call_stack := [lambdaCallerFrame], main_return_value := Value.null }

/-- The register window of the innermost frame of a successful step
result; a projection used to state concrete facts about call results. -/
def topRegisters (r : Except String VMState) : List Value :=
  match r with
  | .ok s => (s.call_stack.headD (StackFrame.new 0)).registers
  | .error _ => []

set_option maxRecDepth 40000 in
/-- C3 counterexample: the claim reads: the P arguments are copied for
every P up to the register limit.  Invoking a 17-parameter lambda from
argument base 0, callee register 17 should receive caller register 16
(Int 116); the copy loop stops at 16 arguments, so callee register 17
still holds Null. -/
theorem c3_counterexample :
    (topRegisters (execInvokeLambda lambdaState 0 17)).getD 17 Value.null = Value.null ∧
    lambdaCallerFrame.registers.getD 16 Value.null = Value.int 116 ∧
    Value.null ≠ Value.int 116 := by
  refine ⟨rfl, rfl, by simp⟩

/-- C3 (amended): invoking the lambda in register b with parameter count P
and captures C pushes a fresh 256-register frame at the lambda code index;
the first min(P, 16) arguments are copied from the caller registers
starting at a into callee registers 1..min(P, 16); parameter slots past
the 16th stay Null; and every captured value C_i lands in callee register
P + 1 + i whenever that index is below the 256-register frame size. -/
theorem c3_invoke_lambda (s : VMState) (frame : StackFrame) (rest : List StackFrame)
    (a b : Nat) (ci pc : Int) (cv : List Value)
    (hs : s.call_stack = frame :: rest)
    (hb : b < frame.registers.length)
    (hlam : frame.registers.getD b Value.null = Value.lambda ci pc cv)
    (hpc : 0 ≤ pc) :
    ∃ lf : StackFrame,
      execInvokeLambda s a b =
        .ok { s with call_stack :=
          lf :: { frame with instruction_pointer := frame.instruction_pointer + 1 } :: rest } ∧
      lf.registers.length = 256 ∧
      lf.instruction_pointer = ci ∧
      (∀ i : Nat, (i : Int) < min pc 16 → a + i < frame.registers.length →
        lf.registers.getD (i + 1) Value.null = frame.registers.getD (a + i) Value.null) ∧
      (∀ i : Nat, 16 ≤ i → (i : Int) < pc →
        lf.registers.getD (i + 1) Value.null = Value.null) ∧
      (∀ i : Nat, i < cv.length → pc + 1 + (i : Int) < 256 →
        lf.registers.getD (pc + 1 + (i : Int)).toNat Value.null = cv.getD i Value.null) := by
  refine ⟨_, execInvokeLambda_eq s frame rest a b ci pc cv hs hb hlam, ?_, rfl, ?_, ?_, ?_⟩
  · unfold copy_captures
    rw [copy_captures_loop_length, copy_arguments_length, List.length_replicate]
  · intro i hi hai
    have hi16 : i < 16 := by omega
    have hipc : (i : Int) < pc := by omega
    unfold copy_captures
    rw [copy_captures_loop_getD_not_target _ _ _ _ _ hpc (Or.inl (by push_cast; omega))]
    rw [copy_arguments_getD_written _ _ _ _ _ (by omega) hai
      (by rw [List.length_replicate]; omega)]
  · intro i h16 hipc
    unfold copy_captures
    rw [copy_captures_loop_getD_not_target _ _ _ _ _ hpc (Or.inl (by push_cast; omega))]
    rw [copy_arguments_getD_not_written _ _ _ _ _ (Or.inr (by omega))]
    exact getD_replicate_null _ _
  · intro i hicv hilt
    unfold copy_captures
    rw [copy_captures_loop_getD_target _ _ _ _ _ hpc hicv
      (by rw [copy_arguments_length, List.length_replicate]; exact_mod_cast hilt)]

/-- A caller frame holding Ints 1, 2, 3 in registers 0..2 and, in
register 3, a 2-parameter lambda capturing Ints 7 and 8. -/
def invokeWitnessFrame : StackFrame :=
  { registers := [Value.int 1, Value.int 2, Value.int 3,
      Value.lambda 5 2 [Value.int 7, Value.int 8]]
    instruction_pointer := 0
    function_index := -1 }

/-- A thread state about to execute INVOKE_LAMBDA 0, 3 on that frame. -/
def invokeWitnessState : VMState :=
  { call_stack := [invokeWitnessFrame], main_return_value := Value.null }

/-- Witness for C3 at the two-parameter lambda in register 3, invoked with
argument base 0. -/
theorem c3_invoke_lambda_witness :
    ∃ lf : StackFrame,
      execInvokeLambda invokeWitnessState 0 3 =
        .ok { invokeWitnessState with call_stack :=
          lf :: { invokeWitnessFrame with instruction_pointer := 1 } :: [] } ∧
      lf.registers.length = 256 ∧
      lf.instruction_pointer = 5 ∧
      (∀ i : Nat, (i : Int) < min 2 16 → 0 + i < invokeWitnessFrame.registers.length →
        lf.registers.getD (i + 1) Value.null =
          invokeWitnessFrame.registers.getD (0 + i) Value.null) ∧
      (∀ i : Nat, 16 ≤ i → (i : Int) < 2 →
        lf.registers.getD (i + 1) Value.null = Value.null) ∧
      (∀ i : Nat, i < 2 → 2 + 1 + (i : Int) < 256 →
        lf.registers.getD (2 + 1 + (i : Int)).toNat Value.null =
          [Value.int 7, Value.int 8].getD i Value.null) :=
  c3_invoke_lambda invokeWitnessState invokeWitnessFrame [] 0 3 5 2
    [Value.int 7, Value.int 8] rfl (by decide) rfl (by decide)

/-- C10: registers of freshly created frames hold Null before anything is
written: the StackFrame constructor (used by the DoofVM constructor for
the main frame and by push_frame for every call) default-initialises every
slot to Null; after CALL the callee registers other than the copied
parameter slots 1..P read as Null; after INVOKE_LAMBDA the callee
registers other than the parameter and capture slots read as Null. -/
theorem c10_new_frame_registers_null :
    (∀ n j : Nat, (StackFrame.new n).registers.getD j Value.null = Value.null) ∧
    (∀ (s : VMState) (frame : StackFrame) (rest : List StackFrame) (a fidx : Nat)
       (pool fields : List Value) (P R E : Int),
       s.call_stack = frame :: rest →
       a < frame.registers.length →
       fidx < pool.length →
       pool.getD fidx Value.null = Value.funcMeta fields →
       fields.getD 2 Value.null = Value.int E →
       fields.getD 1 Value.null = Value.int R →
       fields.getD 0 Value.null = Value.int P →
       ∃ cf : StackFrame,
         execCall s a fidx pool =
           .ok { s with call_stack :=
             cf :: { frame with instruction_pointer := frame.instruction_pointer + 1 } ::
               rest } ∧
         ∀ j : Nat, j = 0 ∨ P < (j : Int) →
           cf.registers.getD j Value.null = Value.null) ∧
    (∀ (s : VMState) (frame : StackFrame) (rest : List StackFrame) (a b : Nat)
       (ci pc : Int) (cv : List Value),
       s.call_stack = frame :: rest →
       b < frame.registers.length →
       frame.registers.getD b Value.null = Value.lambda ci pc cv →
       0 ≤ pc →
       ∃ lf : StackFrame,
         execInvokeLambda s a b =
           .ok { s with call_stack :=
             lf :: { frame with instruction_pointer := frame.instruction_pointer + 1 } ::
               rest } ∧
         ∀ j : Nat, j = 0 ∨ pc + (cv.length : Int) < (j : Int) →
           lf.registers.getD j Value.null = Value.null) := by
  refine ⟨?_, ?_, ?_⟩
  · intro n j
    exact getD_replicate_null n j
  · intro s frame rest a fidx pool fields P R E hs ha hf hmeta h2 h1 h0
    refine ⟨_, execCall_eq s frame rest a fidx pool fields P R E hs ha hf hmeta h2 h1 h0, ?_⟩
    intro j hj
    rw [copy_arguments_getD_not_written _ _ _ _ _ (by omega)]
    exact getD_replicate_null _ _
  · intro s frame rest a b ci pc cv hs hb hlam hpc
    refine ⟨_, execInvokeLambda_eq s frame rest a b ci pc cv hs hb hlam, ?_⟩
    intro j hj
    unfold copy_captures
    rw [copy_captures_loop_getD_not_target _ _ _ _ _ hpc
      (by
        rcases hj with h | h
        · exact Or.inl (by omega)
        · exact Or.inr (by push_cast at h ⊢; omega))]
    rw [copy_arguments_getD_not_written _ _ _ _ _ (by omega)]
    exact getD_replicate_null _ _

/-- A thread state about to execute CALL 1, 0: register 1 holds the Int
argument 43 and constant 0 is a FunctionMetadata record with one
parameter, eight registers and entry point 5. -/
def callWitnessFrame : StackFrame :=
  { registers := [Value.int 42, Value.int 43]
    instruction_pointer := 3
    function_index := -1 }

/-- The thread state wrapping that caller frame. -/
def callWitnessState : VMState :=
  { call_stack := [callWitnessFrame], main_return_value := Value.null }

/-- The one-entry constant pool holding the callee FunctionMetadata. -/
def callWitnessPool : List Value :=
  [Value.funcMeta [Value.int 1, Value.int 8, Value.int 5]]

/-- Witness for C10 at the concrete CALL above: every callee register
other than the single parameter slot reads as Null. -/
theorem c10_new_frame_registers_null_witness :
    (StackFrame.new 256).registers.getD 7 Value.null = Value.null ∧
    ∃ cf : StackFrame,
      execCall callWitnessState 1 0 callWitnessPool =
        .ok { callWitnessState with call_stack :=
          cf :: { callWitnessFrame with instruction_pointer := 4 } :: [] } ∧
      ∀ j : Nat, j = 0 ∨ (1 : Int) < (j : Int) →
        cf.registers.getD j Value.null = Value.null :=
  ⟨c10_new_frame_registers_null.1 256 7,
   c10_new_frame_registers_null.2.1 callWitnessState callWitnessFrame [] 1 0
     callWitnessPool [Value.int 1, Value.int 8, Value.int 5] 1 8 5
     rfl (by decide) (by decide) rfl rfl rfl rfl⟩
